import Mathlib

/-!
Verification of the `gis_TPI` import tool (`import.py`) against its
natural-language specification.

The script is sequential glue: it resolves a fixed input file next to the
script, sniffs its header to classify the format, enables the PostGIS
extensions via `psql`, and shells out to `pg_restore`, `psql -f` or
`ogr2ogr`.  We embed it shallowly: the filesystem and the results of
external commands become an explicit environment (`FS`, `Env`), each
Python function becomes a Lean function returning the list of observable
events (subprocess invocations, error-stream reports) together with a
step result (normal return, `sys.exit`, or an uncaught exception), and
the `__main__` driver becomes `mainRun`.
-/

namespace GisTPI

/-- Configuration constants of `import.py` (lines 10-17). -/
def DB_HOST : String := "localhost"

def DB_PORT : String := "5433"

def DB_NAME : String := "geoserver"

def DB_USER : String := "postgres"

def DB_PASSWORD : String := "postgres"

/-- Defined in the source (line 15) but never used afterwards. -/
def DB_SSLMODE : String := "disable"

def INPUT_FILENAME : String := "GisTPI"

/-! ### Generic list helpers (byte-string and text-string operations) -/

/-- Python `hay.startswith(needle)` over bytes/str, as
bytes/str, written over lists. -/
def startsWithL [BEq α] : List α → List α → Bool
  | [], _ => true
  | _ :: _, [] => false
  | n :: ns, h :: hs => n == h && startsWithL ns hs

/-- Python's `needle in hay` substring test, as `containsSubL needle hay`. -/
def containsSubL [BEq α] (needle : List α) : List α → Bool
  | [] => needle.isEmpty
  | h :: t => startsWithL needle (h :: t) || containsSubL needle t

/-- Python `hay.find(needle)`: index of the first occurrence, `none`
standing for `-1`. -/
def findSub [BEq α] (needle : List α) : List α → Option Nat
  | [] => if needle.isEmpty then some 0 else none
  | h :: t =>
    if startsWithL needle (h :: t) then some 0
    else (findSub needle t).map (fun i => i + 1)

/-- Python `hay.find(needle, start)`. -/
def findSubFrom [BEq α] (needle : List α) (hay : List α) (start : Nat) :
    Option Nat :=
  (findSub needle (hay.drop start)).map (fun i => i + start)

/-- Python slice `s[i:j]`. -/
def sliceL (s : List α) (i j : Nat) : List α := (s.drop i).take (j - i)

/-- The character set of the `.strip("/\\ ")` call in
`launch_stackbuilder_from_error` (line 58). -/
def stripSet : List Char := ['/', '\\', ' ']

/-- Python `s.strip("/\\ ")`: remove those characters from both ends. -/
def stripFence (l : List Char) : List Char :=
  ((l.dropWhile (fun c => stripSet.contains c)).reverse.dropWhile
      (fun c => stripSet.contains c)).reverse

/-- ASCII bytes of a literal, for the `b'...'` byte strings of the
source. -/
def asciiBytes (s : String) : List Nat := s.data.map Char.toNat

/-! ### Format detection (`detect_file_type`, lines 133-146)

The Python function opens the file twice: once in binary mode reading 15
bytes, once in text mode (`utf-8`, `errors='ignore'`) reading 100
characters.  We model the file by its byte content and reproduce the
decode: UTF-8 with invalid bytes skipped, followed by universal-newline
translation (text mode turns `\r\n` and `\r` into `\n`). -/

/-- A UTF-8 continuation byte (`0x80`-`0xBF`). -/
def isCont (b : Nat) : Bool := 0x80 ≤ b && b ≤ 0xBF

/-- UTF-8 decoding with `errors='ignore'`, fuelled: each step consumes at
least the lead byte and one unit of fuel, so `fuel = length` is enough.
Well-formed sequences become their code point; bytes that cannot start or
complete a valid sequence are skipped.  (CPython skips the exact invalid
subpart; we skip the lead byte, which agrees on the inputs whose valid
prefix matters here.) -/
def utf8DecodeAux : Nat → List Nat → List Char
  | 0, _ => []
  | _, [] => []
  | fuel + 1, b :: rest =>
    if b < 0x80 then Char.ofNat b :: utf8DecodeAux fuel rest
    else if 0xC2 ≤ b && b ≤ 0xDF then
      match rest with
      | b2 :: rest2 =>
        if isCont b2 then
          Char.ofNat ((b - 0xC0) * 0x40 + (b2 - 0x80)) :: utf8DecodeAux fuel rest2
        else utf8DecodeAux fuel rest
      | [] => []
    else if 0xE0 ≤ b && b ≤ 0xEF then
      match rest with
      | b2 :: b3 :: rest3 =>
        if (isCont b2 && isCont b3)
            && (b != 0xE0 || 0xA0 ≤ b2) && (b != 0xED || b2 ≤ 0x9F) then
          Char.ofNat (((b - 0xE0) * 0x40 + (b2 - 0x80)) * 0x40 + (b3 - 0x80))
            :: utf8DecodeAux fuel rest3
        else utf8DecodeAux fuel (b2 :: b3 :: rest3)
      | rest' => utf8DecodeAux fuel rest'
    else if 0xF0 ≤ b && b ≤ 0xF4 then
      match rest with
      | b2 :: b3 :: b4 :: rest4 =>
        if (isCont b2 && isCont b3 && isCont b4)
            && (b != 0xF0 || 0x90 ≤ b2) && (b != 0xF4 || b2 ≤ 0x8F) then
          Char.ofNat ((((b - 0xF0) * 0x40 + (b2 - 0x80)) * 0x40 + (b3 - 0x80))
              * 0x40 + (b4 - 0x80)) :: utf8DecodeAux fuel rest4
        else utf8DecodeAux fuel (b2 :: b3 :: b4 :: rest4)
      | rest' => utf8DecodeAux fuel rest'
    else utf8DecodeAux fuel rest

/-- The decode of the text-mode reopen: UTF-8, `errors='ignore'`. -/
def utf8DecodeIgnore (bs : List Nat) : List Char :=
  utf8DecodeAux bs.length bs

/-- Text-mode universal newline translation: `\r\n` and lone `\r`
become `\n`. -/
def translateNewlines : List Char → List Char
  | [] => []
  | '\r' :: '\n' :: rest => '\n' :: translateNewlines rest
  | '\r' :: rest => '\n' :: translateNewlines rest
  | c :: rest => c :: translateNewlines rest

/-- Models `f.read(100).upper()` of the text-mode reopen in `detect_file_type`
(lines 141-142). -/
def textWindow (bs : List Nat) : List Char :=
  ((translateNewlines (utf8DecodeIgnore bs)).take 100).map Char.toUpper

/-- The check of line 143: any of `"CREATE"`, `"SET"`, `"--"` in the
uppercased 100-character window. -/
def hasScriptMarker (bs : List Nat) : Bool :=
  containsSubL "CREATE".data (textWindow bs)
    || containsSubL "SET".data (textWindow bs)
    || containsSubL "--".data (textWindow bs)

/-- Marker `b'PGDMP'` (line 137). -/
def pgdmpMagic : List Nat := asciiBytes "PGDMP"

/-- Magic `b'SQLite format 3'` (line 138) - 15 bytes, exactly the size of the
binary header window. -/
def sqliteMagic : List Nat := asciiBytes "SQLite format 3"

inductive FileType
  | PG_DUMP_BINARY
  | GEOPACKAGE
  | SQL_SCRIPT
  | UNKNOWN
deriving DecidableEq, Repr

/-- Embeds `detect_file_type` (lines 133-146): `header = f.read(15)`;
`PGDMP` prefix, then `b'SQLite format 3' in header`, then the SQL-script
marker search on the text decode, else `UNKNOWN`.  I/O errors (swallowed
to `UNKNOWN` in the source) are out of scope: the file's bytes are given. -/
def detect_file_type (bs : List Nat) : FileType :=
  if startsWithL pgdmpMagic (bs.take 15) then .PG_DUMP_BINARY
  else if containsSubL sqliteMagic (bs.take 15) then .GEOPACKAGE
  else if hasScriptMarker bs then .SQL_SCRIPT
  else .UNKNOWN

/-! ### The external world

`FS` models the filesystem-facing collaborators (`shutil.which`,
`glob.glob`, `os.path.exists`, `os.path.isfile`, `os.path.join`'s
separator, and the script's own directory).  `Env` adds the result of
running an external command (`subprocess.run`) and the byte content of
the resolved input file.  Everything is deterministic for a run. -/

structure FS where
  sep : String
  scriptDir : String
  which : String → Option String
  globMatches : String → List String
  pathExists : String → Bool
  isFile : String → Bool

/-- What `subprocess.run(..., capture_output=True, text=True)` yields:
the exit status and the captured error text. -/
structure CmdResult where
  returncode : Int
  stderrText : List Char

structure Env where
  fs : FS
  run : List String → CmdResult
  fileBytes : List Nat

/-- Observable actions of a run: subprocess invocations, the GUI/browser
recovery actions, and the console reports the spec talks about
(error-stream messages, the unknown-format warning, the detected type). -/
inductive Event
  | detected (t : FileType)
  | runCmd (argv : List String)
  | runPopen (argv : List String)
  | openBrowser (url : String)
  | errNoTool (name : String)
  | warnSqlErr (msg : List Char)
  | errMissingPostgis
  | errScriptFailed (code : Int)
  | warnUnknownFormat
  | errInputNotFound
deriving DecidableEq, Repr

/-- How a Python function call ends: normal return, a propagating
`sys.exit(code)` (a `SystemExit`, which `except Exception` does not
catch), or an uncaught exception. -/
inductive StepResult
  | ok
  | exit (code : Nat)
  | crashed
deriving DecidableEq, Repr

/-- How the whole process ends. -/
inductive Outcome
  | exited (code : Nat)
  | crashed
deriving DecidableEq, Repr

def stepOutcome : StepResult → Outcome
  | .ok => .exited 0
  | .exit c => .exited c
  | .crashed => .crashed

/-! ### Executable discovery (`find_executable`, lines 20-35) -/

/-- The fallback directory patterns of lines 25-30. -/
def common_paths : List String :=
  ["C:\\Program Files\\PostgreSQL\\*\\bin",
   "C:\\Program Files (x86)\\PostgreSQL\\*\\bin",
   "C:\\OSGeo4W\\bin",
   "C:\\Program Files\\QGIS*\\bin"]

/-- Descending insertion, modelling `matches.sort(reverse=True)`. -/
def insertDesc (x : String) : List String → List String
  | [] => [x]
  | y :: ys => if y < x then x :: y :: ys else y :: insertDesc x ys

def sortDesc : List String → List String
  | [] => []
  | x :: xs => insertDesc x (sortDesc xs)

/-- The glob loop of lines 31-34: first pattern with matches wins, the
lexicographically largest match (`sort(reverse=True)`, `matches[0]`). -/
def globSearch (fs : FS) : List String → Option String
  | [] => none
  | p :: rest =>
    match sortDesc (fs.globMatches p) with
    | [] => globSearch fs rest
    | m :: _ => some m

/-- Embeds `find_executable` (lines 20-35): `shutil.which`, then the Windows
fallback directories with `name + ".exe"` appended via `os.path.join`. -/
def find_executable (fs : FS) (name : String) : Option String :=
  match fs.which name with
  | some p => some p
  | none =>
    globSearch fs (common_paths.map (fun pat => pat ++ fs.sep ++ name ++ ".exe"))

/-! ### Recovery flow (`launch_stackbuilder_from_error`, lines 37-96) -/

/-- The documentation URL opened when no stackbuilder is found (line 94). -/
def installUrl : String :=
  "https://www.postgis.net/documentation/getting_started/install_windows/"

/-- The brute-force glob pattern of line 72. -/
def sbGlobPattern : String :=
  "C:\\Program Files\\PostgreSQL\\*\\bin\\stackbuilder.exe"

/-- Lines 46-60: slice the error text between the first `C:/` (or `C:\`)
and the following `share`, stripped of `/\\ ` - only when the text
mentions `PostgreSQL`. -/
def extractBasePath (s : List Char) : Option (List Char) :=
  if containsSubL "PostgreSQL".data s then
    match
      (match findSub "C:/".data s with
       | some i => some i
       | none => findSub "C:\\".data s) with
    | none => none
    | some i =>
      match findSubFrom "share".data s i with
      | none => none
      | some j => some (stripFence (sliceL s i j))
  else none

/-- Lines 62-74: the candidate `stackbuilder.exe`, either derived from
the error text (and existence-checked), or the last brute-force glob
match (`candidates[-1]`). -/
def stackbuilderCandidate (env : Env) (s : List Char) : Option String :=
  let viaError : Option String :=
    match extractBasePath s with
    | some bp =>
      let cand := String.mk bp ++ env.fs.sep ++ "bin" ++ env.fs.sep
          ++ "stackbuilder.exe"
      if env.fs.pathExists cand then some cand else none
    | none => none
  match viaError with
  | some c => some c
  | none => (env.fs.globMatches sbGlobPattern).getLast?

/-- Lines 76-96: launch the stackbuilder via `Popen` when it exists,
otherwise open the documentation page in the browser; returns whether the
installer was launched. -/
def launch_stackbuilder_from_error (env : Env) (s : List Char) :
    List Event × Bool :=
  match stackbuilderCandidate env s with
  | some p =>
    if env.fs.pathExists p then ([Event.runPopen [p]], true)
    else ([Event.openBrowser installUrl], false)
  | none => ([Event.openBrowser installUrl], false)

/-! ### Extension activation (`force_enable_postgis`, lines 98-131) -/

def sqlEnablePostgis : String := "CREATE EXTENSION IF NOT EXISTS postgis CASCADE;"

def sqlEnableTopology : String := "CREATE EXTENSION IF NOT EXISTS postgis_topology;"

def enableCommands : List String := [sqlEnablePostgis, sqlEnableTopology]

/-- The `psql -c` command line of line 115. -/
def activCmd (tool sql : String) : List String :=
  [tool, "-h", DB_HOST, "-p", DB_PORT, "-U", DB_USER, "-d", DB_NAME, "-c", sql]

/-- The fatal-error test of line 123: both the file-not-found pattern and
the control-file name occur in the captured stderr. -/
def fatalMissingPostgis (s : List Char) : Bool :=
  containsSubL "No such file or directory".data s
    && containsSubL "postgis.control".data s

/-- The statement loop of lines 114-131.  A zero exit logs and
continues; the fatal pattern triggers the recovery flow and `sys.exit(1)`
(a `SystemExit`, not caught by the `except Exception` of line 130); any
other failure is warned about and the loop continues. -/
def runEnable (env : Env) (tool : String) : List String → List Event × StepResult
  | [] => ([], .ok)
  | sql :: rest =>
    let res := env.run (activCmd tool sql)
    if res.returncode = 0 then
      let next := runEnable env tool rest
      (Event.runCmd (activCmd tool sql) :: next.1, next.2)
    else if fatalMissingPostgis res.stderrText then
      (Event.runCmd (activCmd tool sql) :: Event.errMissingPostgis ::
        (launch_stackbuilder_from_error env res.stderrText).1, .exit 1)
    else
      let next := runEnable env tool rest
      (Event.runCmd (activCmd tool sql) :: Event.warnSqlErr res.stderrText ::
        next.1, next.2)

/-- Embeds `force_enable_postgis` (lines 98-131): report and return when `psql`
is missing (the `False` return value is ignored by every caller),
otherwise run the two enable statements. -/
def force_enable_postgis (env : Env) : List Event × StepResult :=
  match find_executable env.fs "psql" with
  | none => ([Event.errNoTool "psql"], .ok)
  | some tool => runEnable env tool enableCommands

/-! ### The three importers (lines 148-208) -/

/-- The `pg_restore` command line of lines 162-174. -/
def pgRestoreCmd (tool path : String) : List String :=
  [tool, "-h", DB_HOST, "-p", DB_PORT, "-U", DB_USER, "-d", DB_NAME,
   "-v", "-c", "--if-exists", "--no-owner", "--no-acl", path]

/-- Embeds `import_with_pg_restore` (lines 148-181): activate PostGIS first; a
missing `pg_restore` is reported to stderr and the stage returns; the
restore runs with `check=False`, so its exit status is ignored. -/
def import_with_pg_restore (env : Env) (path : String) :
    List Event × StepResult :=
  let act := force_enable_postgis env
  match act.2 with
  | .ok =>
    match find_executable env.fs "pg_restore" with
    | none => (act.1 ++ [Event.errNoTool "pg_restore"], .ok)
    | some tool => (act.1 ++ [Event.runCmd (pgRestoreCmd tool path)], .ok)
  | r => (act.1, r)

/-- The `psql -f` command line of line 195. -/
def psqlScriptCmd (tool path : String) : List String :=
  [tool, "-h", DB_HOST, "-p", DB_PORT, "-U", DB_USER, "-d", DB_NAME,
   "-f", path]

/-- Embeds `import_with_psql` (lines 183-201): activate PostGIS first; a missing
`psql` is reported and the stage returns; the script runs with
`check=True`, and the resulting `CalledProcessError` on a non-zero exit
is caught and reported with its code - the function still returns
normally. -/
def import_with_psql (env : Env) (path : String) : List Event × StepResult :=
  let act := force_enable_postgis env
  match act.2 with
  | .ok =>
    match find_executable env.fs "psql" with
    | none => (act.1 ++ [Event.errNoTool "psql"], .ok)
    | some tool =>
      let res := env.run (psqlScriptCmd tool path)
      if res.returncode = 0 then
        (act.1 ++ [Event.runCmd (psqlScriptCmd tool path)], .ok)
      else
        (act.1 ++ [Event.runCmd (psqlScriptCmd tool path),
                   Event.errScriptFailed res.returncode], .ok)
  | r => (act.1, r)

/-- The DSN string of line 206. -/
def ogrDsn : String :=
  "PG:host=" ++ DB_HOST ++ " port=" ++ DB_PORT ++ " dbname=" ++ DB_NAME
    ++ " user=" ++ DB_USER ++ " password=" ++ DB_PASSWORD

/-- The `ogr2ogr` command line of line 207. -/
def ogrCmd (tool path : String) : List String :=
  [tool, "-f", "PostgreSQL", ogrDsn, path, "-overwrite", "-nln",
   "GisTPI_import"]

/-- Embeds `import_with_ogr2ogr` (lines 203-208): no extension activation and no
missing-tool check.  When `find_executable` returns `None`, the command
list starts with `None` and `subprocess.run` raises an uncaught
`TypeError`: the run crashes with nothing reported. -/
def import_with_ogr2ogr (env : Env) (path : String) :
    List Event × StepResult :=
  match find_executable env.fs "ogr2ogr" with
  | none => ([], .crashed)
  | some tool => ([Event.runCmd (ogrCmd tool path)], .ok)

/-! ### Resolver and driver (lines 211-237) -/

/-- The path `os.path.join(script_dir, INPUT_FILENAME)` of line 213. -/
def inputPath (fs : FS) : String := fs.scriptDir ++ fs.sep ++ INPUT_FILENAME

/-- Embeds `resolve_input_file` (lines 211-215): the fixed name beside the
script, accepted only when `os.path.isfile` holds. -/
def resolve_input_file (fs : FS) : Option String :=
  if fs.isFile (inputPath fs) then some (inputPath fs) else none

/-- The dispatch of lines 229-237, keyed by the detected type; `UNKNOWN`
warns and falls back to the binary-dump path. -/
def dispatchRun (env : Env) (path : String) : FileType → List Event × StepResult
  | .PG_DUMP_BINARY => import_with_pg_restore env path
  | .SQL_SCRIPT => import_with_psql env path
  | .GEOPACKAGE => import_with_ogr2ogr env path
  | .UNKNOWN =>
    (Event.warnUnknownFormat :: (import_with_pg_restore env path).1,
     (import_with_pg_restore env path).2)

/-- The `__main__` block (lines 217-237): resolve (exit 1 when absent),
detect, dispatch.  Falling off the end of the block is a normal exit 0. -/
def mainRun (env : Env) : List Event × Outcome :=
  match resolve_input_file env.fs with
  | none => ([Event.errInputNotFound], .exited 1)
  | some path =>
    (Event.detected (detect_file_type env.fileBytes) ::
       (dispatchRun env path (detect_file_type env.fileBytes)).1,
     stepOutcome (dispatchRun env path (detect_file_type env.fileBytes)).2)

/-! ### Helper lemmas -/

theorem startsWithL_take [BEq α] (n h : List α) (k : Nat)
    (hs : startsWithL n h = true) (hk : n.length ≤ k) :
    startsWithL n (h.take k) = true := by
  induction n generalizing h k with
  | nil => simp [startsWithL]
  | cons a ns ih =>
    cases h with
    | nil => simp [startsWithL] at hs
    | cons b hs' =>
      cases k with
      | zero => simp at hk
      | succ k' =>
        simp only [startsWithL, Bool.and_eq_true] at hs
        simp only [List.take_succ_cons, startsWithL, Bool.and_eq_true]
        exact ⟨hs.1, ih hs' k' hs.2 (Nat.succ_le_succ_iff.mp hk)⟩

theorem take_of_startsWithL [BEq α] [LawfulBEq α] (n h : List α)
    (hs : startsWithL n h = true) : h.take n.length = n := by
  induction n generalizing h with
  | nil => simp
  | cons a ns ih =>
    cases h with
    | nil => simp [startsWithL] at hs
    | cons b hs' =>
      simp only [startsWithL, Bool.and_eq_true, beq_iff_eq] at hs
      simp [List.take_succ_cons, hs.1.symm, ih hs' hs.2]

/-- The recovery flow ends in exactly one observable action: either the
stackbuilder `Popen` or the browser opening the documentation URL. -/
theorem launch_shape (env : Env) (s : List Char) :
    (launch_stackbuilder_from_error env s).1 = [Event.openBrowser installUrl]
      ∨ ∃ p, (launch_stackbuilder_from_error env s).1 = [Event.runPopen [p]] := by
  unfold launch_stackbuilder_from_error
  cases stackbuilderCandidate env s with
  | none => left; rfl
  | some p =>
    by_cases hp : env.fs.pathExists p = true
    · right; exact ⟨p, by simp [hp]⟩
    · left; simp [hp]

/-- Shorthand for the hypothesis "some activation statement that actually
runs fails with the missing-extension error text". -/
def fatalActivation (env : Env) (t : String) : Prop :=
  ((env.run (activCmd t sqlEnablePostgis)).returncode ≠ 0 ∧
     fatalMissingPostgis (env.run (activCmd t sqlEnablePostgis)).stderrText = true)
  ∨ (((env.run (activCmd t sqlEnablePostgis)).returncode = 0 ∨
        fatalMissingPostgis (env.run (activCmd t sqlEnablePostgis)).stderrText = false) ∧
      (env.run (activCmd t sqlEnableTopology)).returncode ≠ 0 ∧
      fatalMissingPostgis (env.run (activCmd t sqlEnableTopology)).stderrText = true)

instance (env : Env) (t : String) : Decidable (fatalActivation env t) := by
  unfold fatalActivation; infer_instance

theorem runEnable_fatal (env : Env) (t : String) (h : fatalActivation env t) :
    (runEnable env t enableCommands).2 = .exit 1 ∧
    (∀ a, Event.runCmd a ∈ (runEnable env t enableCommands).1 →
       a = activCmd t sqlEnablePostgis ∨ a = activCmd t sqlEnableTopology) ∧
    ((∃ p, Event.runPopen p ∈ (runEnable env t enableCommands).1) ∨
       Event.openBrowser installUrl ∈ (runEnable env t enableCommands).1) := by
  have hl1 := launch_shape env (env.run (activCmd t sqlEnablePostgis)).stderrText
  have hl2 := launch_shape env (env.run (activCmd t sqlEnableTopology)).stderrText
  rcases h with ⟨h1, hp1⟩ | ⟨h0, h2, hp2⟩
  · have he : runEnable env t enableCommands =
        (Event.runCmd (activCmd t sqlEnablePostgis) :: Event.errMissingPostgis ::
          (launch_stackbuilder_from_error env
            (env.run (activCmd t sqlEnablePostgis)).stderrText).1, .exit 1) := by
      simp [runEnable, enableCommands, h1, hp1]
    rw [he]
    refine ⟨rfl, ?_, ?_⟩
    · intro a ha
      simp only [List.mem_cons] at ha
      rcases ha with ha | ha | ha
      · left; exact (Event.runCmd.injEq _ _).mp ha
      · exact absurd ha (by simp)
      · rcases hl1 with hb | ⟨p, hpp⟩
        · rw [hb] at ha; simp at ha
        · rw [hpp] at ha; simp at ha
    · rcases hl1 with hb | ⟨p, hpp⟩
      · right; rw [hb]; simp
      · left; exact ⟨[p], by rw [hpp]; simp⟩
  · have he : runEnable env t enableCommands =
        (Event.runCmd (activCmd t sqlEnablePostgis) ::
          ((if (env.run (activCmd t sqlEnablePostgis)).returncode = 0 then []
            else [Event.warnSqlErr (env.run (activCmd t sqlEnablePostgis)).stderrText]) ++
           (Event.runCmd (activCmd t sqlEnableTopology) :: Event.errMissingPostgis ::
             (launch_stackbuilder_from_error env
               (env.run (activCmd t sqlEnableTopology)).stderrText).1)), .exit 1) := by
      by_cases hc : (env.run (activCmd t sqlEnablePostgis)).returncode = 0
      · simp [runEnable, enableCommands, hc, h2, hp2]
      · have hf1 : fatalMissingPostgis
            (env.run (activCmd t sqlEnablePostgis)).stderrText = false := by
          rcases h0 with h0 | h0
          · exact absurd h0 hc
          · exact h0
        simp [runEnable, enableCommands, hc, hf1, h2, hp2]
    rw [he]
    refine ⟨rfl, ?_, ?_⟩
    · intro a ha
      simp only [List.mem_cons, List.mem_append] at ha
      rcases ha with ha | ha | ha
      · left; exact (Event.runCmd.injEq _ _).mp ha
      · split at ha
        · simp at ha
        · simp only [List.mem_singleton] at ha; exact absurd ha (by simp)
      · rcases ha with ha | ha | ha
        · right; exact (Event.runCmd.injEq _ _).mp ha
        · exact absurd ha (by simp)
        · rcases hl2 with hb | ⟨p, hpp⟩
          · rw [hb] at ha; simp at ha
          · rw [hpp] at ha; simp at ha
    · rcases hl2 with hb | ⟨p, hpp⟩
      · right; simp only [List.mem_cons, List.mem_append]
        right; right; rw [hb]; simp
      · left; refine ⟨[p], ?_⟩
        simp only [List.mem_cons, List.mem_append]
        right; right; rw [hpp]; simp

/-- Running `force_enable_postgis` under a fatal activation failure: the whole
call ends in `sys.exit(1)`, the only subprocess invocations are the two
activation statements, and a recovery action was taken. -/
theorem force_enable_fatal (env : Env) (t : String)
    (ht : find_executable env.fs "psql" = some t) (h : fatalActivation env t) :
    (force_enable_postgis env).2 = .exit 1 ∧
    (∀ a, Event.runCmd a ∈ (force_enable_postgis env).1 →
       a = activCmd t sqlEnablePostgis ∨ a = activCmd t sqlEnableTopology) ∧
    ((∃ p, Event.runPopen p ∈ (force_enable_postgis env).1) ∨
       Event.openBrowser installUrl ∈ (force_enable_postgis env).1) := by
  have := runEnable_fatal env t h
  unfold force_enable_postgis
  rw [ht]
  exact this

/-- An activation `sys.exit` propagates straight out of the restore
path: no tool lookup, no restore invocation. -/
theorem import_pg_restore_propagates (env : Env) (path : String)
    (h : (force_enable_postgis env).2 = .exit 1) :
    import_with_pg_restore env path = ((force_enable_postgis env).1, .exit 1) := by
  have hpair : force_enable_postgis env =
      ((force_enable_postgis env).1, StepResult.exit 1) := by rw [← h]
  unfold import_with_pg_restore
  rw [hpair]

/-- Likewise for the script path. -/
theorem import_psql_propagates (env : Env) (path : String)
    (h : (force_enable_postgis env).2 = .exit 1) :
    import_with_psql env path = ((force_enable_postgis env).1, .exit 1) := by
  have hpair : force_enable_postgis env =
      ((force_enable_postgis env).1, StepResult.exit 1) := by rw [← h]
  unfold import_with_psql
  rw [hpair]

/-- Activation when `psql` is found and both statements exit 0: exactly
the two `psql -c` invocations, in order, normal return. -/
theorem force_enable_allok (env : Env) (t : String)
    (ht : find_executable env.fs "psql" = some t)
    (h1 : (env.run (activCmd t sqlEnablePostgis)).returncode = 0)
    (h2 : (env.run (activCmd t sqlEnableTopology)).returncode = 0) :
    force_enable_postgis env =
      ([Event.runCmd (activCmd t sqlEnablePostgis),
        Event.runCmd (activCmd t sqlEnableTopology)], .ok) := by
  unfold force_enable_postgis
  rw [ht]
  simp [runEnable, enableCommands, h1, h2]

/-! ### Concrete environments used as witnesses and counterexamples -/

/-- A minimal filesystem: nothing on the search path, empty globs, no
existing paths, the input file present beside the script. -/
def fsBase : FS where
  sep := "/"
  scriptDir := "."
  which := fun _ => none
  globMatches := fun _ => []
  pathExists := fun _ => false
  isFile := fun _ => true

/-- Claim C1: SQL-script input, `psql` on the path, the script run
(recognisable by its `-f` flag) exits 1, the activation statements exit
0. -/
def env1 : Env where
  fs := { fsBase with which := fun _ => some "psql" }
  run := fun argv =>
    if argv.contains "-f" then { returncode := 1, stderrText := [] }
    else { returncode := 0, stderrText := [] }
  fileBytes := asciiBytes "CREATE TABLE t;"

/-- Claim C2: sixteen filler bytes, then the SQLite magic - within the
first 128 bytes but outside the 15-byte window the code reads. -/
def cex2 : List Nat := asciiBytes "AAAAAAAAAAAAAAAA" ++ sqliteMagic

/-- Claim C3: binary-dump input; the first activation statement fails
with the missing-extension error text; no stackbuilder anywhere, so the
recovery opens the browser. -/
def env3 : Env where
  fs := { fsBase with which := fun _ => some "psql" }
  run := fun argv =>
    if argv.contains sqlEnablePostgis then
      { returncode := 1,
        stderrText := "No such file or directory: postgis.control".data }
    else { returncode := 0, stderrText := [] }
  fileBytes := asciiBytes "PGDMPx"

/-- Claim C4: binary-dump input, every tool found under its own name,
every command succeeding. -/
def env4 : Env where
  fs := { fsBase with which := fun n => some n }
  run := fun _ => { returncode := 0, stderrText := [] }
  fileBytes := asciiBytes "PGDMP" ++ [0, 1, 2]

/-- Claim C5: GeoPackage input (leading SQLite magic), every tool found
under its own name. -/
def env5 : Env where
  fs := { fsBase with which := fun n => some n }
  run := fun _ => { returncode := 0, stderrText := [] }
  fileBytes := sqliteMagic ++ [7]

/-- Claim C6: GeoPackage input and no discoverable tool at all. -/
def env6 : Env where
  fs := fsBase
  run := fun _ => { returncode := 0, stderrText := [] }
  fileBytes := sqliteMagic

/-- Claim C7: SQL-script input, `pg_restore` on the path but `psql`
missing. -/
def env7 : Env where
  fs := { fsBase with
            which := fun n => if n == "pg_restore" then some "pg_restore" else none }
  run := fun _ => { returncode := 0, stderrText := [] }
  fileBytes := asciiBytes "-- sql"

/-- Claim C8: no file of the configured name beside the script. -/
def env8 : Env where
  fs := { fsBase with isFile := fun _ => false }
  run := fun _ => { returncode := 0, stderrText := [] }
  fileBytes := []

/-- Claim C9: a plain comment-led SQL text. -/
def bs9 : List Nat := asciiBytes "-- dump"

/-- Claim C10: bytes matching no detector rule. -/
def env10 : Env where
  fs := fsBase
  run := fun _ => { returncode := 0, stderrText := [] }
  fileBytes := asciiBytes "zzz"

/-! ### The claims -/

/-- Claim C1, counterexample.  In `env1` the input file is an SQL script,
the script import is taken, and `psql -f` exits with status 1; the claim
says the program's own process then exits non-zero, but the
`CalledProcessError` is caught at line 200 of the source, only reported,
and `__main__` falls off the end: the process exits 0. -/
theorem claim1_counterexample :
    detect_file_type env1.fileBytes = .SQL_SCRIPT ∧
    (env1.run (psqlScriptCmd "psql" "./GisTPI")).returncode = 1 ∧
    Event.runCmd (psqlScriptCmd "psql" "./GisTPI") ∈ (mainRun env1).1 ∧
    Event.errScriptFailed 1 ∈ (mainRun env1).1 ∧
    (mainRun env1).2 = .exited 0 := by decide

/-- Claim C1 as amended: when the SQL-script import path is taken and the
external `psql -f` exits non-zero, the failure is reported to the error
stream with the exit code, but the process itself exits with status 0. -/
theorem claim1_theorem (env : Env) (path t : String)
    (hres : resolve_input_file env.fs = some path)
    (hft : detect_file_type env.fileBytes = .SQL_SCRIPT)
    (hact : (force_enable_postgis env).2 = .ok)
    (ht : find_executable env.fs "psql" = some t)
    (hrc : ¬ (env.run (psqlScriptCmd t path)).returncode = 0) :
    mainRun env =
      (Event.detected .SQL_SCRIPT ::
        ((force_enable_postgis env).1 ++
          [Event.runCmd (psqlScriptCmd t path),
           Event.errScriptFailed (env.run (psqlScriptCmd t path)).returncode]),
       .exited 0) := by
  have hpair : force_enable_postgis env =
      ((force_enable_postgis env).1, StepResult.ok) := by rw [← hact]
  have himp : import_with_psql env path =
      ((force_enable_postgis env).1 ++
        [Event.runCmd (psqlScriptCmd t path),
         Event.errScriptFailed (env.run (psqlScriptCmd t path)).returncode],
       .ok) := by
    unfold import_with_psql
    rw [hpair, ht]
    simp [hrc]
  simp [mainRun, hres, hft, dispatchRun, himp, stepOutcome]

theorem claim1_witness :
    mainRun env1 =
      (Event.detected .SQL_SCRIPT ::
        ((force_enable_postgis env1).1 ++
          [Event.runCmd (psqlScriptCmd "psql" "./GisTPI"),
           Event.errScriptFailed
             (env1.run (psqlScriptCmd "psql" "./GisTPI")).returncode]),
       .exited 0) :=
  claim1_theorem env1 "./GisTPI" "psql" (by decide) (by decide) (by decide)
    (by decide) (by decide)

/-- Claim C2, counterexample.  `cex2` carries the SQLite magic at offset
16 - well inside the first 128 bytes - and does not start with `PGDMP`,
yet the detector reads only 15 bytes and classifies the buffer `UNKNOWN`,
not `GEOPACKAGE`. -/
theorem claim2_counterexample :
    containsSubL sqliteMagic (cex2.take 128) = true ∧
    startsWithL pgdmpMagic cex2 = false ∧
    ¬ detect_file_type cex2 = .GEOPACKAGE ∧
    detect_file_type cex2 = .UNKNOWN := by decide

/-- Claim C2 as amended: the binary window is 15 bytes, exactly the
length of the SQLite magic, so the magic is seen only when the buffer
starts with it; every such buffer is classified `GEOPACKAGE`. -/
theorem claim2_theorem (bs : List Nat)
    (h : startsWithL sqliteMagic bs = true) :
    detect_file_type bs = .GEOPACKAGE := by
  have hlen : sqliteMagic.length = 15 := by decide
  have h15 : bs.take 15 = sqliteMagic := by
    have := take_of_startsWithL sqliteMagic bs h
    rwa [hlen] at this
  have hpg : startsWithL pgdmpMagic (bs.take 15) = false := by
    rw [h15]; decide
  have hsq : containsSubL sqliteMagic (bs.take 15) = true := by
    rw [h15]; decide
  simp [detect_file_type, hpg, hsq]

theorem claim2_witness :
    detect_file_type (sqliteMagic ++ [0]) = .GEOPACKAGE :=
  claim2_theorem (sqliteMagic ++ [0]) (by decide)

/-- Claim C3: when an activation statement that runs fails with error
text containing both `"No such file or directory"` and
`"postgis.control"`, the process exits with status 1, the only
subprocess invocations of the whole run are the activation statements
themselves (no import tool is ever invoked), and the recovery action
(stackbuilder `Popen` or browser) was taken first.  The hypothesis
`fatalActivation` states exactly that one of the two statements that get
to run fails that way; `GEOPACKAGE` is excluded because that path never
attempts activation. -/
theorem claim3_theorem (env : Env) (path t : String)
    (hres : resolve_input_file env.fs = some path)
    (hft : ¬ detect_file_type env.fileBytes = .GEOPACKAGE)
    (ht : find_executable env.fs "psql" = some t)
    (hfatal : fatalActivation env t) :
    (mainRun env).2 = .exited 1 ∧
    (∀ a, Event.runCmd a ∈ (mainRun env).1 →
       a = activCmd t sqlEnablePostgis ∨ a = activCmd t sqlEnableTopology) ∧
    ((∃ p, Event.runPopen p ∈ (mainRun env).1) ∨
       Event.openBrowser installUrl ∈ (mainRun env).1) := by
  obtain ⟨hf2, hfmem, hfrec⟩ := force_enable_fatal env t ht hfatal
  have hdisp : (dispatchRun env path (detect_file_type env.fileBytes)).2 = .exit 1 ∧
      ((dispatchRun env path (detect_file_type env.fileBytes)).1 =
          (force_enable_postgis env).1 ∨
        (dispatchRun env path (detect_file_type env.fileBytes)).1 =
          Event.warnUnknownFormat :: (force_enable_postgis env).1) := by
    cases hcase : detect_file_type env.fileBytes with
    | GEOPACKAGE => exact absurd hcase hft
    | PG_DUMP_BINARY =>
      have := import_pg_restore_propagates env path hf2
      exact ⟨by simp [dispatchRun, this], Or.inl (by simp [dispatchRun, this])⟩
    | SQL_SCRIPT =>
      have := import_psql_propagates env path hf2
      exact ⟨by simp [dispatchRun, this], Or.inl (by simp [dispatchRun, this])⟩
    | UNKNOWN =>
      have := import_pg_restore_propagates env path hf2
      exact ⟨by simp [dispatchRun, this], Or.inr (by simp [dispatchRun, this])⟩
  have hmain1 : (mainRun env).1 =
      Event.detected (detect_file_type env.fileBytes) ::
        (dispatchRun env path (detect_file_type env.fileBytes)).1 := by
    simp [mainRun, hres]
  have hmain2 : (mainRun env).2 =
      stepOutcome (dispatchRun env path (detect_file_type env.fileBytes)).2 := by
    simp [mainRun, hres]
  refine ⟨?_, ?_, ?_⟩
  · rw [hmain2, hdisp.1]; rfl
  · intro a ha
    rw [hmain1] at ha
    simp only [List.mem_cons] at ha
    rcases ha with ha | ha
    · exact absurd ha (by simp)
    · rcases hdisp.2 with hd | hd
      · rw [hd] at ha; exact hfmem a ha
      · rw [hd] at ha
        simp only [List.mem_cons] at ha
        rcases ha with ha | ha
        · exact absurd ha (by simp)
        · exact hfmem a ha
  · have hsub : ∀ e, e ∈ (force_enable_postgis env).1 → e ∈ (mainRun env).1 := by
      intro e he
      rw [hmain1]
      rcases hdisp.2 with hd | hd
      · rw [hd]; exact List.mem_cons_of_mem _ he
      · rw [hd]; exact List.mem_cons_of_mem _ (List.mem_cons_of_mem _ he)
    rcases hfrec with ⟨p, hp⟩ | hb
    · exact Or.inl ⟨p, hsub _ hp⟩
    · exact Or.inr (hsub _ hb)

theorem claim3_witness :
    (mainRun env3).2 = .exited 1 ∧
    Event.openBrowser installUrl ∈ (mainRun env3).1 ∧
    Event.runCmd (pgRestoreCmd "pg_restore" "./GisTPI") ∉ (mainRun env3).1 :=
  ⟨(claim3_theorem env3 "./GisTPI" "psql" (by decide) (by decide) (by decide)
      (by decide)).1,
   by decide, by decide⟩

/-- Claim C4: a `PGDMP`-prefixed file is classified binary-dump, the two
activation statements run first, and then `pg_restore` is invoked with
the connection options followed by `-v -c --if-exists --no-owner
--no-acl` and the resolved path - nothing else. -/
theorem claim4_theorem (env : Env) (path t r : String)
    (hres : resolve_input_file env.fs = some path)
    (hpg : startsWithL pgdmpMagic env.fileBytes = true)
    (ht : find_executable env.fs "psql" = some t)
    (h1 : (env.run (activCmd t sqlEnablePostgis)).returncode = 0)
    (h2 : (env.run (activCmd t sqlEnableTopology)).returncode = 0)
    (hr : find_executable env.fs "pg_restore" = some r) :
    detect_file_type env.fileBytes = .PG_DUMP_BINARY ∧
    mainRun env =
      ([Event.detected .PG_DUMP_BINARY,
        Event.runCmd (activCmd t sqlEnablePostgis),
        Event.runCmd (activCmd t sqlEnableTopology),
        Event.runCmd (pgRestoreCmd r path)], .exited 0) := by
  have hdet : detect_file_type env.fileBytes = .PG_DUMP_BINARY := by
    have h15 : startsWithL pgdmpMagic (env.fileBytes.take 15) = true :=
      startsWithL_take _ _ 15 hpg (by decide)
    simp [detect_file_type, h15]
  have hforce := force_enable_allok env t ht h1 h2
  have himp : import_with_pg_restore env path =
      ([Event.runCmd (activCmd t sqlEnablePostgis),
        Event.runCmd (activCmd t sqlEnableTopology),
        Event.runCmd (pgRestoreCmd r path)], .ok) := by
    unfold import_with_pg_restore
    rw [hforce, hr]
    rfl
  exact ⟨hdet, by simp [mainRun, hres, hdet, dispatchRun, himp, stepOutcome]⟩

theorem claim4_witness :
    detect_file_type env4.fileBytes = .PG_DUMP_BINARY ∧
    mainRun env4 =
      ([Event.detected .PG_DUMP_BINARY,
        Event.runCmd (activCmd "psql" sqlEnablePostgis),
        Event.runCmd (activCmd "psql" sqlEnableTopology),
        Event.runCmd (pgRestoreCmd "pg_restore" "./GisTPI")], .exited 0) :=
  claim4_theorem env4 "./GisTPI" "psql" "pg_restore" (by decide) (by decide)
    (by decide) (by decide) (by decide) (by decide)

/-- Claim C5: on the GeoPackage path the only subprocess invocation of
the whole run is `ogr2ogr` with the fixed destination (`-overwrite -nln
GisTPI_import`): no activation statement is attempted at any point. -/
theorem claim5_theorem (env : Env) (path g : String)
    (hres : resolve_input_file env.fs = some path)
    (hft : detect_file_type env.fileBytes = .GEOPACKAGE)
    (hg : find_executable env.fs "ogr2ogr" = some g) :
    mainRun env =
      ([Event.detected .GEOPACKAGE, Event.runCmd (ogrCmd g path)],
       .exited 0) := by
  have himp : import_with_ogr2ogr env path =
      ([Event.runCmd (ogrCmd g path)], .ok) := by
    unfold import_with_ogr2ogr
    rw [hg]
  simp [mainRun, hres, hft, dispatchRun, himp, stepOutcome]

theorem claim5_witness :
    mainRun env5 =
      ([Event.detected .GEOPACKAGE,
        Event.runCmd (ogrCmd "ogr2ogr" "./GisTPI")], .exited 0) :=
  claim5_theorem env5 "./GisTPI" "ogr2ogr" (by decide) (by decide) (by decide)

/-- Claim C6, counterexample.  With no discoverable `ogr2ogr` the
GeoPackage stage does not report anything and does not abort in a
controlled way: `import_with_ogr2ogr` never checks the lookup result, so
`subprocess.run` receives `None` as the executable and raises an uncaught
`TypeError` - the run crashes with only the detection message printed. -/
theorem claim6_counterexample :
    find_executable env6.fs "ogr2ogr" = none ∧
    detect_file_type env6.fileBytes = .GEOPACKAGE ∧
    (mainRun env6).1 = [Event.detected .GEOPACKAGE] ∧
    (mainRun env6).2 = .crashed := by decide

/-- Claim C6 as amended: the activation, restore and script stages do
report a missing executable to the error stream and abort the stage
without invoking anything further; the GeoPackage conversion stage has no
such check and crashes on an uncaught error, reporting nothing. -/
theorem claim6_theorem (env : Env) (path : String) :
    (find_executable env.fs "psql" = none →
       force_enable_postgis env = ([Event.errNoTool "psql"], .ok)) ∧
    ((force_enable_postgis env).2 = .ok →
       find_executable env.fs "pg_restore" = none →
       import_with_pg_restore env path =
         ((force_enable_postgis env).1 ++ [Event.errNoTool "pg_restore"], .ok)) ∧
    (find_executable env.fs "psql" = none →
       import_with_psql env path =
         ([Event.errNoTool "psql", Event.errNoTool "psql"], .ok)) ∧
    (find_executable env.fs "ogr2ogr" = none →
       import_with_ogr2ogr env path = ([], .crashed)) := by
  refine ⟨?_, ?_, ?_, ?_⟩
  · intro h
    unfold force_enable_postgis
    rw [h]
  · intro hok h
    have hpair : force_enable_postgis env =
        ((force_enable_postgis env).1, StepResult.ok) := by rw [← hok]
    unfold import_with_pg_restore
    rw [hpair, h]
  · intro h
    have hforce : force_enable_postgis env = ([Event.errNoTool "psql"], .ok) := by
      unfold force_enable_postgis
      rw [h]
    unfold import_with_psql
    rw [hforce, h]
    rfl
  · intro h
    unfold import_with_ogr2ogr
    rw [h]

theorem claim6_witness :
    force_enable_postgis env6 = ([Event.errNoTool "psql"], .ok) ∧
    import_with_pg_restore env6 "p" =
      ((force_enable_postgis env6).1 ++ [Event.errNoTool "pg_restore"], .ok) ∧
    import_with_psql env6 "p" =
      ([Event.errNoTool "psql", Event.errNoTool "psql"], .ok) ∧
    import_with_ogr2ogr env6 "p" = ([], .crashed) :=
  have h := claim6_theorem env6 "p"
  ⟨h.1 (by decide), h.2.1 (by decide) (by decide), h.2.2.1 (by decide),
   h.2.2.2 (by decide)⟩

/-- Claim C7, counterexample.  With `psql` missing but `pg_restore`
present, an SQL-script input makes the activator report and return - but
the script path's own import tool is the very same missing `psql`, so
no import is attempted either: the whole trace is the detection message and
two missing-tool reports, with no subprocess invocation at all. -/
theorem claim7_counterexample :
    find_executable env7.fs "psql" = none ∧
    find_executable env7.fs "pg_restore" = some "pg_restore" ∧
    detect_file_type env7.fileBytes = .SQL_SCRIPT ∧
    (mainRun env7).1 =
      [Event.detected .SQL_SCRIPT, Event.errNoTool "psql",
       Event.errNoTool "psql"] ∧
    (mainRun env7).2 = .exited 0 := by decide

/-- Claim C7 as amended: when `psql` is missing the activator reports to
the error stream and returns without terminating the process; the
binary-dump path then locates `pg_restore` and attempts the restore with
no extension activated; the script path proceeds too, but its own import
tool is the same missing `psql`, so it reports the missing tool and
completes without attempting any import. -/
theorem claim7_theorem (env : Env) (path r : String)
    (hpsql : find_executable env.fs "psql" = none) :
    force_enable_postgis env = ([Event.errNoTool "psql"], .ok) ∧
    (find_executable env.fs "pg_restore" = some r →
       import_with_pg_restore env path =
         ([Event.errNoTool "psql", Event.runCmd (pgRestoreCmd r path)], .ok)) ∧
    import_with_psql env path =
      ([Event.errNoTool "psql", Event.errNoTool "psql"], .ok) := by
  have hforce : force_enable_postgis env = ([Event.errNoTool "psql"], .ok) := by
    unfold force_enable_postgis
    rw [hpsql]
  refine ⟨hforce, ?_, ?_⟩
  · intro hr
    unfold import_with_pg_restore
    rw [hforce, hr]
    rfl
  · unfold import_with_psql
    rw [hforce, hpsql]
    rfl

theorem claim7_witness :
    force_enable_postgis env7 = ([Event.errNoTool "psql"], .ok) ∧
    import_with_pg_restore env7 "p" =
      ([Event.errNoTool "psql",
        Event.runCmd (pgRestoreCmd "pg_restore" "p")], .ok) ∧
    import_with_psql env7 "p" =
      ([Event.errNoTool "psql", Event.errNoTool "psql"], .ok) :=
  have h := claim7_theorem env7 "p" "pg_restore" (by decide)
  ⟨h.1, h.2.1 (by decide), h.2.2⟩

/-- Claim C8: the resolver returns a path exactly when a file of the
configured name exists beside the script (and then returns that very
path); when it does not, the run is the single missing-input report and
exit status 1 - in particular no detection and no tool invocation. -/
theorem claim8_theorem (env : Env) :
    (∀ p, resolve_input_file env.fs = some p ↔
       (env.fs.isFile (inputPath env.fs) = true ∧ p = inputPath env.fs)) ∧
    (resolve_input_file env.fs = none →
       mainRun env = ([Event.errInputNotFound], .exited 1)) := by
  constructor
  · intro p
    unfold resolve_input_file
    by_cases h : env.fs.isFile (inputPath env.fs) = true
    · simp [h, eq_comm]
    · simp [h]
  · intro h
    simp [mainRun, h]

theorem claim8_witness :
    resolve_input_file env8.fs = none ∧
    mainRun env8 = ([Event.errInputNotFound], .exited 1) :=
  ⟨by decide, (claim8_theorem env8).2 (by decide)⟩

/-- Claim C9: a buffer matching neither binary header rule whose
uppercased 100-character best-effort decode contains `CREATE`, `SET` or
`--` is classified as an SQL script. -/
theorem claim9_theorem (bs : List Nat)
    (h1 : startsWithL pgdmpMagic (bs.take 15) = false)
    (h2 : containsSubL sqliteMagic (bs.take 15) = false)
    (h3 : containsSubL "CREATE".data (textWindow bs) = true
        ∨ containsSubL "SET".data (textWindow bs) = true
        ∨ containsSubL "--".data (textWindow bs) = true) :
    detect_file_type bs = .SQL_SCRIPT := by
  have hm : hasScriptMarker bs = true := by
    unfold hasScriptMarker
    rcases h3 with h | h | h <;> simp [h]
  simp [detect_file_type, h1, h2, hm]

theorem claim9_witness : detect_file_type bs9 = .SQL_SCRIPT :=
  claim9_theorem bs9 (by decide) (by decide) (by decide)

/-- Claim C10: an input the detector cannot classify is dispatched, after
the unknown-format warning, to the very same `import_with_pg_restore`
call the binary-dump path makes - same activation, same restore
invocation, same outcome. -/
theorem claim10_theorem (env : Env) (path : String)
    (hres : resolve_input_file env.fs = some path)
    (hft : detect_file_type env.fileBytes = .UNKNOWN) :
    mainRun env =
      (Event.detected .UNKNOWN :: Event.warnUnknownFormat ::
         (import_with_pg_restore env path).1,
       stepOutcome (import_with_pg_restore env path).2) := by
  simp [mainRun, hres, hft, dispatchRun]

theorem claim10_witness :
    mainRun env10 =
      (Event.detected .UNKNOWN :: Event.warnUnknownFormat ::
         (import_with_pg_restore env10 "./GisTPI").1,
       stepOutcome (import_with_pg_restore env10 "./GisTPI").2) :=
  claim10_theorem env10 "./GisTPI" (by decide) (by decide)

end GisTPI
